import Mathlib

/-!
Verification of the broadcast peer-discovery enumerator of
`src/plugins/broadcast/broadcastenumerator.cpp`.

The embedding models the Qt types the enumerator manipulates:

* `QVariant` / `QVariantMap` (an association list with `QMap` semantics:
  `insert` replaces the binding of a key, `take` removes it and returns it);
* UDP datagrams as a payload (`some` a decoded map, `none` when
  `QJsonDocument::fromJson` fails to parse, in which case
  `.object().toVariantMap()` yields the empty map);
* the socket as `Option Int` — `some port` when bound, `none` when closed
  or when a bind failed; `QUdpSocket::localPort()` returns 0 when unbound;
* the observable effects (signals emitted, datagrams written, messages
  logged) as an explicit `Event` trace.

The expiry sweep of `BroadcastEnumerator::onExpiryTimeout` calls
`mDevices.erase(i)` and then reads `i.key()` and executes `++i` on the same
iterator.  Qt's container contract invalidates an iterator passed to
`erase`, so those two operations have no defined result; the embedding
models reaching them by stopping the loop and recording an
`invalidIteratorRead` event, with the `Bool` component of the result
flagging that the run went undefined.
-/

/-- Model of `QVariant` restricted to the value shapes the enumerator
handles: JSON strings, string lists (`QStringList`), and the invalid
(default-constructed) variant. -/
inductive QVariant where
  | null : QVariant
  | str : String → QVariant
  | strList : List String → QVariant
  deriving Repr, DecidableEq

/-- `QVariant::toString()`: a string value converts to itself; the invalid
variant and a string list convert to the null string, which compares equal
to `""`. -/
def QVariant.toString : QVariant → String
  | .str s => s
  | _ => ""

/-- `QVariantMap` (`QMap<QString, QVariant>`) as an association list.  All
operations below preserve the `QMap` discipline of at most one binding per
key on the bindings they touch. -/
abbrev VariantMap := List (String × QVariant)

/-- Lookup of the binding of a key (first occurrence). -/
def VariantMap.get : VariantMap → String → Option QVariant
  | [], _ => none
  | (k', v) :: rest, k => if k' = k then some v else VariantMap.get rest k

/-- Removal of every binding of a key. -/
def VariantMap.eraseKey : VariantMap → String → VariantMap
  | [], _ => []
  | (k', v) :: rest, k =>
      if k' = k then VariantMap.eraseKey rest k
      else (k', v) :: VariantMap.eraseKey rest k

/-- `QMap::insert`: binds `k` to `v`, replacing any previous binding. -/
def VariantMap.insert (m : VariantMap) (k : String) (v : QVariant) : VariantMap :=
  (k, v) :: VariantMap.eraseKey m k

/-- `QMap::take`: removes the binding of `k` and returns its value, or the
default-constructed (invalid) variant when `k` is absent. -/
def VariantMap.take (m : VariantMap) (k : String) : QVariant × VariantMap :=
  ((VariantMap.get m k).getD QVariant.null, VariantMap.eraseKey m k)

/-- One inbound UDP datagram: the decoded payload
(`QJsonDocument::fromJson(data).object().toVariantMap()` — `none` models a
payload that does not parse as a JSON object, which Qt turns into the empty
map) and the sender address captured by `readDatagram`. -/
structure Datagram where
  payload : Option VariantMap
  sender : String
  deriving Repr, DecidableEq

/-- Observable effects of the enumerator: the `deviceUpdated` and
`deviceRemoved` signals, each `writeDatagram` call (uuid, name, destination
address, destination port, success of the send), each message handed to the
logger, and the marker recorded when the expiry sweep reads an iterator
invalidated by `erase`. -/
inductive Event where
  | deviceUpdated : String → VariantMap → Event
  | deviceRemoved : String → Event
  | datagramSent : String → String → String → Int → Bool → Event
  | logError : String → String → Event
  | invalidIteratorRead : Event
  deriving Repr, DecidableEq

/-- One `QNetworkAddressEntry`: only its broadcast address matters here;
`none` models a null `QHostAddress`. -/
structure AddressEntry where
  broadcast : Option String
  deriving Repr, DecidableEq

/-- One `QNetworkInterface`: whether its flags contain `CanBroadcast`, and
its address entries. -/
structure NetworkInterface where
  canBroadcast : Bool
  addressEntries : List AddressEntry
  deriving Repr, DecidableEq

/-- A `QTimer`: its interval and whether it is running. -/
structure TimerState where
  interval : Int
  active : Bool
  deriving Repr, DecidableEq

/-- The mutable state of `BroadcastEnumerator`: the two timers, the UDP
socket (`some port` when bound), and `mDevices`, the peer table mapping a
device uuid to the `qint64` timestamp of its last datagram. -/
structure EnumState where
  broadcastTimer : TimerState
  expiryTimer : TimerState
  socket : Option Int
  mDevices : List (String × Int)
  deriving Repr, DecidableEq

/-- The environment the enumerator reads from: the current network
interfaces, the application's identity (`deviceUuid`, `deviceName`), which
destination addresses a `writeDatagram` would fail for, the current wall
clock (`QDateTime::currentMSecsSinceEpoch`), the settings registry, whether
a `bind` on a given port would succeed, and the socket's error string. -/
structure Env where
  interfaces : List NetworkInterface
  deviceUuid : String
  deviceName : String
  sendFails : String → Bool
  nowMs : Int
  settings : String → Int
  bindSucceeds : Int → Bool
  socketErrorString : String

/-- `QUdpSocket::localPort()`: the bound port, or 0 for an unbound socket. -/
def localPort : Option Int → Int
  | some p => p
  | none => 0

/-- `MessageTag` constant of the source file. -/
def MessageTag : String := "broadcast"

/-- Settings key `BroadcastInterval`. -/
def BroadcastInterval : String := "BroadcastInterval"

/-- Settings key `BroadcastExpiry`. -/
def BroadcastExpiry : String := "BroadcastExpiry"

/-- Settings key `BroadcastPort`. -/
def BroadcastPort : String := "BroadcastPort"

/-- `QSet<QHostAddress>::insert` for one address entry: a non-null
broadcast address is added unless already present (`QSet` keeps one copy of
each element; the model keeps the set in first-insertion order). -/
def insertEntry (acc : List String) (e : AddressEntry) : List String :=
  match e.broadcast with
  | some a => if a ∈ acc then acc else acc ++ [a]
  | none => acc

/-- Inner loop of `onBroadcastTimeout`: an interface contributes the
non-null broadcast addresses of its address entries when its flags contain
`CanBroadcast`, otherwise nothing. -/
def insertInterface (acc : List String) (i : NetworkInterface) : List String :=
  if i.canBroadcast then i.addressEntries.foldl insertEntry acc else acc

/-- The address-collection phase of `BroadcastEnumerator::onBroadcastTimeout`:
the set of broadcast addresses of all broadcast-capable interfaces. -/
def collectBroadcastAddresses (ifs : List NetworkInterface) : List String :=
  ifs.foldl insertInterface []

/-- `BroadcastEnumerator::onBroadcastTimeout`: collects the broadcast
addresses, builds the `{uuid, name}` JSON packet from the application's
identity, and calls `writeDatagram(data, address, mSocket.localPort())`
once per collected address.  The return value of `writeDatagram` is
discarded by the source, so a failed send leaves no trace other than the
success flag of the `datagramSent` event; nothing is logged. -/
def onBroadcastTimeout (env : Env) (socket : Option Int) : List Event :=
  (collectBroadcastAddresses env.interfaces).map fun a =>
    Event.datagramSent env.deviceUuid env.deviceName a (localPort socket) (!env.sendFails a)

/-- Loop of `BroadcastEnumerator::onExpiryTimeout` over `mDevices` (`kept`
is the part already passed over, `rest` the part the iterator has not yet
reached).  For an expired entry the source executes `mDevices.erase(i)` and
then `emit deviceRemoved(i.key())` and `++i` on the erased iterator; per
Qt's container contract `erase` invalidates `i`, so the model stops at that
point, records `invalidIteratorRead`, and flags the run as undefined. -/
def onExpiryTimeoutGo (ms expiry : Int) :
    List (String × Int) → List (String × Int) → List (String × Int) × List Event × Bool
  | kept, [] => (kept, [], false)
  | kept, (k, v) :: rest =>
      if ms - v > expiry then
        (kept ++ rest, [Event.invalidIteratorRead], true)
      else
        onExpiryTimeoutGo ms expiry (kept ++ [(k, v)]) rest

/-- `BroadcastEnumerator::onExpiryTimeout`: reads the current time and the
`BroadcastExpiry` setting, then runs the removal loop over `mDevices`. -/
def onExpiryTimeout (env : Env) (devices : List (String × Int)) :
    List (String × Int) × List Event × Bool :=
  onExpiryTimeoutGo env.nowMs (env.settings BroadcastExpiry) [] devices

/-- Body of the `while (mSocket.hasPendingDatagrams())` loop of
`BroadcastEnumerator::onReadyRead` for one datagram: decode the payload
(parse failure yields the empty map), `insert` the `addresses` field
holding the observed sender address, then `take("uuid")` out of the map and
convert it to a string.  Returns the uuid and the property map passed to
`deviceUpdated`. -/
def processDatagram (d : Datagram) : String × VariantMap :=
  let properties :=
    VariantMap.insert (d.payload.getD []) "addresses" (QVariant.strList [d.sender])
  let taken := VariantMap.take properties "uuid"
  (QVariant.toString taken.1, taken.2)

/-- `BroadcastEnumerator::onReadyRead`: drains every pending datagram and
emits one `deviceUpdated` signal per datagram.  `mDevices` is threaded
through unchanged because the source body of the loop contains no write to
`mDevices`. -/
def onReadyRead : List Datagram → List (String × Int) → List (String × Int) × List Event
  | [], devices => (devices, [])
  | d :: rest, devices =>
      let u := processDatagram d
      let r := onReadyRead rest devices
      (r.1, Event.deviceUpdated u.1 u.2 :: r.2)

/-- `BroadcastEnumerator::onSettingsChanged`: three independent reactions
guarded by membership of the corresponding key in the changed-key list, in
source order.  `BroadcastInterval`: stop the broadcast timer, set its
interval from the registry, call `onBroadcastTimeout()` once, restart the
timer.  `BroadcastExpiry`: likewise with the expiry timer and
`onExpiryTimeout()`.  `BroadcastPort`: `mSocket.close()` then
`mSocket.bind(QHostAddress::Any, newPort)`; when the bind fails the socket
stays closed and one `Message::Error` with tag `broadcast` and the socket's
error string goes to the logger. -/
def onSettingsChanged (env : Env) (keys : List String) (st : EnumState) :
    EnumState × List Event :=
  let s1 :=
    if BroadcastInterval ∈ keys then
      ({ st with broadcastTimer := ⟨env.settings BroadcastInterval, true⟩ },
        onBroadcastTimeout env st.socket)
    else (st, [])
  let s2 :=
    if BroadcastExpiry ∈ keys then
      let r := onExpiryTimeout env s1.1.mDevices
      ({ s1.1 with expiryTimer := ⟨env.settings BroadcastExpiry, true⟩, mDevices := r.1 },
        r.2.1)
    else (s1.1, [])
  let s3 :=
    if BroadcastPort ∈ keys then
      let newPort := env.settings BroadcastPort
      if env.bindSucceeds newPort then
        ({ s2.1 with socket := some newPort }, ([] : List Event))
      else
        ({ s2.1 with socket := none },
          [Event.logError MessageTag env.socketErrorString])
    else (s2.1, [])
  (s3.1, s1.2 ++ s2.2 ++ s3.2)

/-- Recognizer for `datagramSent` events. -/
def isDatagramSent : Event → Bool
  | .datagramSent _ _ _ _ _ => true
  | _ => false

/-- Recognizer for logger messages. -/
def isLogError : Event → Bool
  | .logError _ _ => true
  | _ => false

/-- Destination address of a `datagramSent` event. -/
def eventAddress : Event → String
  | .datagramSent _ _ a _ _ => a
  | _ => ""

/-- Destination port of a `datagramSent` event. -/
def eventPort : Event → Int
  | .datagramSent _ _ _ p _ => p
  | _ => 0

theorem VariantMap.get_eraseKey_self (m : VariantMap) (k : String) :
    VariantMap.get (VariantMap.eraseKey m k) k = none := by
  induction m with
  | nil => rfl
  | cons p rest ih =>
      by_cases h : p.1 = k <;>
        simp [VariantMap.eraseKey, VariantMap.get, h, ih]

theorem VariantMap.get_eraseKey_ne (m : VariantMap) (k k' : String) (h : k ≠ k') :
    VariantMap.get (VariantMap.eraseKey m k') k = VariantMap.get m k := by
  induction m with
  | nil => rfl
  | cons p rest ih =>
      obtain ⟨k0, v⟩ := p
      by_cases h1 : k0 = k'
      · subst h1
        simp [VariantMap.eraseKey, VariantMap.get, ih, Ne.symm h]
      · by_cases h2 : k0 = k
        · subst h2
          simp [VariantMap.eraseKey, VariantMap.get, h1]
        · simp [VariantMap.eraseKey, VariantMap.get, h1, h2, ih]

theorem mem_insertEntry (acc : List String) (e : AddressEntry) (x : String) :
    x ∈ insertEntry acc e ↔ x ∈ acc ∨ e.broadcast = some x := by
  unfold insertEntry
  cases h : e.broadcast with
  | none => simp
  | some a =>
      by_cases hx : a ∈ acc
      · simp only [hx, if_true]
        constructor
        · exact Or.inl
        · rintro (h' | h')
          · exact h'
          · rw [Option.some_inj] at h'
            exact h' ▸ hx
      · simp [hx, List.mem_append, or_comm, eq_comm]

theorem nodup_insertEntry (acc : List String) (e : AddressEntry) (h : acc.Nodup) :
    (insertEntry acc e).Nodup := by
  unfold insertEntry
  cases e.broadcast with
  | none => exact h
  | some a =>
      by_cases hx : a ∈ acc
      · simpa [hx] using h
      · simp [hx, List.nodup_append, h]

theorem mem_foldl_insertEntry (l : List AddressEntry) (acc : List String) (x : String) :
    x ∈ l.foldl insertEntry acc ↔ x ∈ acc ∨ ∃ e ∈ l, e.broadcast = some x := by
  induction l generalizing acc with
  | nil => simp
  | cons e rest ih =>
      rw [List.foldl_cons, ih, mem_insertEntry]
      simp [or_assoc]

theorem nodup_foldl_insertEntry (l : List AddressEntry) (acc : List String)
    (h : acc.Nodup) : (l.foldl insertEntry acc).Nodup := by
  induction l generalizing acc with
  | nil => exact h
  | cons e rest ih => exact ih _ (nodup_insertEntry acc e h)

theorem mem_insertInterface (acc : List String) (i : NetworkInterface) (x : String) :
    x ∈ insertInterface acc i ↔
      x ∈ acc ∨ (i.canBroadcast = true ∧ ∃ e ∈ i.addressEntries, e.broadcast = some x) := by
  unfold insertInterface
  by_cases h : i.canBroadcast <;> simp [h, mem_foldl_insertEntry]

theorem nodup_insertInterface (acc : List String) (i : NetworkInterface)
    (h : acc.Nodup) : (insertInterface acc i).Nodup := by
  unfold insertInterface
  by_cases hc : i.canBroadcast <;> simp [hc, nodup_foldl_insertEntry, h]

theorem mem_foldl_insertInterface (ifs : List NetworkInterface) (acc : List String)
    (x : String) :
    x ∈ ifs.foldl insertInterface acc ↔
      x ∈ acc ∨ ∃ i ∈ ifs, i.canBroadcast = true ∧
        ∃ e ∈ i.addressEntries, e.broadcast = some x := by
  induction ifs generalizing acc with
  | nil => simp
  | cons i rest ih =>
      rw [List.foldl_cons, ih, mem_insertInterface]
      simp [or_assoc]

theorem mem_collectBroadcastAddresses (ifs : List NetworkInterface) (x : String) :
    x ∈ collectBroadcastAddresses ifs ↔
      ∃ i ∈ ifs, i.canBroadcast = true ∧
        ∃ e ∈ i.addressEntries, e.broadcast = some x := by
  unfold collectBroadcastAddresses
  rw [mem_foldl_insertInterface]
  simp

theorem nodup_foldl_insertInterface (ifs : List NetworkInterface) (acc : List String)
    (h : acc.Nodup) : (ifs.foldl insertInterface acc).Nodup := by
  induction ifs generalizing acc with
  | nil => exact h
  | cons i rest ih => exact ih _ (nodup_insertInterface acc i h)

theorem nodup_collectBroadcastAddresses (ifs : List NetworkInterface) :
    (collectBroadcastAddresses ifs).Nodup :=
  nodup_foldl_insertInterface ifs [] List.nodup_nil

theorem onReadyRead_fst (pending : List Datagram) (devices : List (String × Int)) :
    (onReadyRead pending devices).1 = devices := by
  induction pending with
  | nil => rfl
  | cons d rest ih => simp [onReadyRead, ih]

theorem onReadyRead_snd (pending : List Datagram) (devices : List (String × Int)) :
    (onReadyRead pending devices).2 =
      pending.map fun d => Event.deviceUpdated (processDatagram d).1 (processDatagram d).2 := by
  induction pending with
  | nil => rfl
  | cons d rest ih => simp [onReadyRead, ih]

theorem filter_isDatagramSent_onBroadcastTimeout (env : Env) (socket : Option Int) :
    (onBroadcastTimeout env socket).filter isDatagramSent = onBroadcastTimeout env socket := by
  apply List.filter_eq_self.mpr
  intro e he
  simp only [onBroadcastTimeout, List.mem_map] at he
  obtain ⟨a, _, rfl⟩ := he
  rfl

theorem filter_isDatagramSent_expiryGo (ms expiry : Int) (kept rest : List (String × Int)) :
    (onExpiryTimeoutGo ms expiry kept rest).2.1.filter isDatagramSent = [] := by
  induction rest generalizing kept with
  | nil => rfl
  | cons p rest ih =>
      obtain ⟨k, v⟩ := p
      by_cases h : ms - v > expiry <;> simp [onExpiryTimeoutGo, h, ih, isDatagramSent]

theorem map_eventAddress_datagram (env : Env) (p : Int) (l : List String) :
    (l.map fun a =>
      Event.datagramSent env.deviceUuid env.deviceName a p (!env.sendFails a)).map eventAddress
      = l := by
  induction l with
  | nil => rfl
  | cons a l ih => simp [eventAddress, ih]

theorem map_eventPort_datagram (env : Env) (p : Int) (l : List String) :
    (l.map fun a =>
      Event.datagramSent env.deviceUuid env.deviceName a p (!env.sendFails a)).map eventPort
      = List.replicate l.length p := by
  induction l with
  | nil => rfl
  | cons a l ih => simp [eventPort, ih, List.replicate_succ]

theorem addresses_ne_uuid : ("addresses" : String) ≠ "uuid" := by decide

/-- Sample environment: sweep time 100000 ms, `BroadcastExpiry` 30000 ms. -/
def envE : Env := ⟨[], "", "", fun _ => false, 100000, fun _ => 30000, fun _ => true, ""⟩

/-- Three broadcast-capable interfaces with addresses a1, a2, a3; sends to
a2 fail. -/
def ifsF : List NetworkInterface := [⟨true, [⟨some "a1"⟩]⟩, ⟨true, [⟨some "a2"⟩]⟩, ⟨true, [⟨some "a3"⟩]⟩]

/-- Environment for the three-interface scenario with one failing address. -/
def envF : Env := ⟨ifsF, "U", "N", fun a => a == "a2", 0, fun _ => 0, fun _ => true, ""⟩

/-- Two broadcast-capable interfaces sharing one broadcast address (plus a
null entry), and a third interface that is not broadcast-capable. -/
def ifsA : List NetworkInterface :=
  [⟨true, [⟨some "192.168.1.255"⟩, ⟨none⟩]⟩, ⟨true, [⟨some "192.168.1.255"⟩]⟩,
    ⟨false, [⟨some "10.0.0.255"⟩]⟩]

/-- Environment over `ifsA` with no send failures. -/
def envA : Env := ⟨ifsA, "U", "N", fun _ => false, 0, fun _ => 0, fun _ => true, ""⟩

/-- Environment with one broadcast address and `BroadcastInterval` 5000. -/
def envW : Env :=
  ⟨[⟨true, [⟨some "192.168.1.255"⟩]⟩], "U", "N", fun _ => false, 0, fun _ => 5000,
    fun _ => true, ""⟩

/-- Enumerator state whose broadcast timer already runs at interval 5000. -/
def stW : EnumState := ⟨⟨5000, true⟩, ⟨30000, true⟩, some 40816, []⟩

/-- Decoded payload with a `uuid`, a `name`, and an unknown extra field. -/
def mW : VariantMap :=
  [("uuid", QVariant.str "A1"), ("name", QVariant.str "Alice"), ("extra", QVariant.str "42")]

/-- Environment whose bind attempts fail. -/
def envP : Env := ⟨[], "U", "N", fun _ => false, 0, fun _ => 40816, fun _ => false, "bind failed"⟩

/-- Enumerator state with a bound socket and one known peer. -/
def stP : EnumState := ⟨⟨5000, true⟩, ⟨30000, true⟩, some 40816, [("X", 100)]⟩

/-- C1: the claim says processing an inbound datagram from id X leaves the
table with a record for X whose `lastSeenAt` is the processing time.  The
receive loop of `BroadcastEnumerator::onReadyRead` contains no write to
`mDevices` at all: the table after the loop equals the table before it, and
in particular a datagram carrying uuid "X" processed against the empty
table leaves the table empty. -/
theorem receive_loop_never_updates_peer_table :
    (∀ pending devices, (onReadyRead pending devices).1 = devices) ∧
    (onReadyRead [⟨some [("uuid", QVariant.str "X")], "10.0.0.5"⟩]
      ([] : List (String × Int))).1 = [] :=
  ⟨onReadyRead_fst, rfl⟩

/-- C2: the claim says a sweep removes every record with
`now - lastSeenAt > expiry` and emits `deviceRemoved` with its id exactly
once.  On a table holding one expired record (last seen at 0, swept at
100000 with expiry 30000) the source erases the entry and then reads
`i.key()` and executes `++i` on the iterator invalidated by the erase: the
run reaches an operation with no defined result (flag `true`), and no
`deviceRemoved "X"` event is emitted. -/
theorem expiry_sweep_reads_invalidated_iterator :
    onExpiryTimeout envE [("X", 0)] = ([], [Event.invalidIteratorRead], true) ∧
    Event.deviceRemoved "X" ∉ (onExpiryTimeout envE [("X", 0)]).2.1 :=
  ⟨by decide, by decide⟩

/-- C3: one broadcast tick sends exactly one datagram per unique non-null
broadcast address of the broadcast-capable interfaces (the collected
address list has no duplicates and contains precisely those addresses),
each datagram carrying the local `{uuid, name}` identity with the socket's
own local port as destination port. -/
theorem broadcast_tick_one_datagram_per_unique_address (env : Env) (socket : Option Int) :
    (collectBroadcastAddresses env.interfaces).Nodup ∧
    (∀ a, a ∈ collectBroadcastAddresses env.interfaces ↔
      ∃ i ∈ env.interfaces, i.canBroadcast = true ∧
        ∃ e ∈ i.addressEntries, e.broadcast = some a) ∧
    onBroadcastTimeout env socket = (collectBroadcastAddresses env.interfaces).map
      (fun a => Event.datagramSent env.deviceUuid env.deviceName a (localPort socket)
        (!env.sendFails a)) :=
  ⟨nodup_collectBroadcastAddresses env.interfaces,
    fun a => mem_collectBroadcastAddresses env.interfaces a, rfl⟩

/-- Witness for C3: two interfaces sharing a broadcast address and one
non-broadcast-capable interface collapse to the single address
192.168.1.255. -/
theorem broadcast_tick_one_datagram_per_unique_address_witness :
    collectBroadcastAddresses envA.interfaces = ["192.168.1.255"] ∧
    ((collectBroadcastAddresses envA.interfaces).Nodup ∧
     (∀ a, a ∈ collectBroadcastAddresses envA.interfaces ↔
       ∃ i ∈ envA.interfaces, i.canBroadcast = true ∧
         ∃ e ∈ i.addressEntries, e.broadcast = some a) ∧
     onBroadcastTimeout envA (some 40816) = (collectBroadcastAddresses envA.interfaces).map
       (fun a => Event.datagramSent envA.deviceUuid envA.deviceName a (localPort (some 40816))
         (!envA.sendFails a))) :=
  ⟨by decide, broadcast_tick_one_datagram_per_unique_address envA (some 40816)⟩

/-- C4 counterexample: with three broadcast addresses where the send to a2
fails, the tick does attempt all three sends, but nothing at all is handed
to the logger — refuting "each send failure is reported through the logging
collaborator". -/
theorem send_failure_unreported_counterexample :
    Event.datagramSent "U" "N" "a2" 40816 false ∈ onBroadcastTimeout envF (some 40816) ∧
    Event.datagramSent "U" "N" "a1" 40816 true ∈ onBroadcastTimeout envF (some 40816) ∧
    Event.datagramSent "U" "N" "a3" 40816 true ∈ onBroadcastTimeout envF (some 40816) ∧
    (onBroadcastTimeout envF (some 40816)).filter isLogError = [] := by
  decide

/-- C4 amended: a send failure on one address aborts nothing — every
collected address is attempted regardless of which sends fail — but
failures are silently ignored: the return value of `writeDatagram` is
discarded and no message reaches the logging collaborator. -/
theorem send_failures_silently_ignored (env : Env) (socket : Option Int) :
    (onBroadcastTimeout env socket).map eventAddress = collectBroadcastAddresses env.interfaces ∧
    (onBroadcastTimeout env socket).filter isLogError = [] := by
  constructor
  · exact map_eventAddress_datagram env (localPort socket) _
  · apply List.filter_eq_nil_iff.mpr
    intro e he
    simp only [onBroadcastTimeout, List.mem_map] at he
    obtain ⟨a, _, rfl⟩ := he
    simp [isLogError]

/-- C5: a settings notification containing `BroadcastInterval` whose new
value equals the interval already in effect fires exactly the one immediate
broadcast of the normal reconfiguration path — the datagrams sent during
the whole notification are those of a single `onBroadcastTimeout`
invocation, never a duplicated batch. -/
theorem interval_reconfiguration_single_broadcast (env : Env) (keys : List String)
    (st : EnumState) (h1 : BroadcastInterval ∈ keys)
    (h2 : env.settings BroadcastInterval = st.broadcastTimer.interval) :
    ((onSettingsChanged env keys st).2).filter isDatagramSent
      = onBroadcastTimeout env st.socket := by
  by_cases h3 : BroadcastExpiry ∈ keys <;>
    by_cases h4 : BroadcastPort ∈ keys <;>
      by_cases h5 : env.bindSucceeds (env.settings BroadcastPort) <;>
        simp [onSettingsChanged, h1, h3, h4, h5, List.filter_append,
          filter_isDatagramSent_onBroadcastTimeout, filter_isDatagramSent_expiryGo,
          onExpiryTimeout, isDatagramSent]

/-- Witness for C5: reconfiguring `BroadcastInterval` to the value 5000 it
already holds fires exactly the single normal broadcast batch. -/
theorem interval_reconfiguration_single_broadcast_witness :
    (BroadcastInterval ∈ [BroadcastInterval] ∧
      envW.settings BroadcastInterval = stW.broadcastTimer.interval) ∧
    onBroadcastTimeout envW stW.socket
      = [Event.datagramSent "U" "N" "192.168.1.255" 40816 true] ∧
    ((onSettingsChanged envW [BroadcastInterval] stW).2).filter isDatagramSent
      = onBroadcastTimeout envW stW.socket :=
  ⟨⟨by decide, rfl⟩, by decide,
    interval_reconfiguration_single_broadcast envW [BroadcastInterval] stW (by decide) rfl⟩

/-- C6: a payload decoding to a map with a `uuid` field and arbitrary other
fields yields an upsert whose id is that uuid and whose attribute map drops
`uuid`, binds `addresses` to the one-element list holding the observed
sender address (overriding any self-declared `addresses` field), and keeps
every other decoded field unchanged. -/
theorem decode_tolerance_upsert_fields (m : VariantMap) (sender u : String)
    (h : VariantMap.get m "uuid" = some (QVariant.str u)) :
    (processDatagram ⟨some m, sender⟩).1 = u ∧
    VariantMap.get (processDatagram ⟨some m, sender⟩).2 "addresses"
      = some (QVariant.strList [sender]) ∧
    VariantMap.get (processDatagram ⟨some m, sender⟩).2 "uuid" = none ∧
    ∀ k, k ≠ "uuid" → k ≠ "addresses" →
      VariantMap.get (processDatagram ⟨some m, sender⟩).2 k = VariantMap.get m k := by
  refine ⟨?_, ?_, ?_, ?_⟩
  · simp [processDatagram, VariantMap.take, VariantMap.insert, VariantMap.get,
      addresses_ne_uuid, VariantMap.get_eraseKey_ne m "uuid" "addresses" (by decide), h,
      QVariant.toString]
  · simp [processDatagram, VariantMap.take, VariantMap.insert, VariantMap.eraseKey,
      VariantMap.get, addresses_ne_uuid]
  · simp [processDatagram, VariantMap.take, VariantMap.insert, VariantMap.eraseKey,
      VariantMap.get, addresses_ne_uuid, VariantMap.get_eraseKey_self]
  · intro k hk1 hk2
    simp [processDatagram, VariantMap.take, VariantMap.insert, VariantMap.eraseKey,
      VariantMap.get, addresses_ne_uuid, Ne.symm hk2,
      VariantMap.get_eraseKey_ne _ k "uuid" hk1,
      VariantMap.get_eraseKey_ne _ k "addresses" hk2]

/-- Witness for C6: the payload `{uuid: "A1", name: "Alice", extra: "42"}`
received from 10.0.0.5 upserts id "A1" with `name` and `extra` kept,
`uuid` dropped and `addresses` bound to ["10.0.0.5"]. -/
theorem decode_tolerance_upsert_fields_witness :
    VariantMap.get mW "uuid" = some (QVariant.str "A1") ∧
    ((processDatagram ⟨some mW, "10.0.0.5"⟩).1 = "A1" ∧
     VariantMap.get (processDatagram ⟨some mW, "10.0.0.5"⟩).2 "addresses"
       = some (QVariant.strList ["10.0.0.5"]) ∧
     VariantMap.get (processDatagram ⟨some mW, "10.0.0.5"⟩).2 "uuid" = none ∧
     ∀ k, k ≠ "uuid" → k ≠ "addresses" →
       VariantMap.get (processDatagram ⟨some mW, "10.0.0.5"⟩).2 k = VariantMap.get mW k) :=
  ⟨by decide, decode_tolerance_upsert_fields mW "10.0.0.5" "A1" (by decide)⟩

/-- C7: a datagram whose payload fails to parse is not discarded: the empty
decoded map still yields one upsert event, with the empty string as id and
an attribute map holding only the injected `addresses` field. -/
theorem malformed_payload_still_upserts (sender : String) (devices : List (String × Int)) :
    (onReadyRead [⟨none, sender⟩] devices).2
      = [Event.deviceUpdated "" [("addresses", QVariant.strList [sender])]] := by
  simp [onReadyRead, processDatagram, VariantMap.insert, VariantMap.take,
    VariantMap.eraseKey, VariantMap.get, QVariant.toString, addresses_ne_uuid]

/-- C8: a settings notification containing `BroadcastPort` (and no other
key) closes the socket and attempts a fresh bind on the new port; when the
bind fails the error string is handed to the logger under the `broadcast`
tag, the component is left without a socket, and the rest of the state
(timers, peer table) is unchanged — the handler is a total function, so no
exception or crash occurs. -/
theorem port_change_bind_failure_state (env : Env) (keys : List String) (st : EnumState)
    (hp : BroadcastPort ∈ keys) (hi : BroadcastInterval ∉ keys)
    (he : BroadcastExpiry ∉ keys)
    (hb : env.bindSucceeds (env.settings BroadcastPort) = false) :
    onSettingsChanged env keys st
      = ({ st with socket := none }, [Event.logError MessageTag env.socketErrorString]) := by
  simp [onSettingsChanged, hp, hi, he, hb]

/-- Witness for C8: reconfiguring the port while every bind fails leaves
the socket closed and logs the socket's error string. -/
theorem port_change_bind_failure_state_witness :
    (BroadcastPort ∈ [BroadcastPort] ∧ BroadcastInterval ∉ [BroadcastPort] ∧
      BroadcastExpiry ∉ [BroadcastPort] ∧
      envP.bindSucceeds (envP.settings BroadcastPort) = false) ∧
    onSettingsChanged envP [BroadcastPort] stP
      = ({ stP with socket := none }, [Event.logError MessageTag envP.socketErrorString]) :=
  ⟨⟨by decide, by decide, by decide, rfl⟩,
    port_change_bind_failure_state envP [BroadcastPort] stP (by decide) (by decide)
      (by decide) rfl⟩

/-- C9: one invocation of the drain loop consumes every pending datagram
and emits exactly one `deviceUpdated` event per datagram, in reading
order. -/
theorem drain_loop_one_event_per_datagram (pending : List Datagram)
    (devices : List (String × Int)) :
    (onReadyRead pending devices).2
      = pending.map (fun d => Event.deviceUpdated (processDatagram d).1 (processDatagram d).2) ∧
    (onReadyRead pending devices).2.length = pending.length := by
  refine ⟨onReadyRead_snd pending devices, ?_⟩
  rw [onReadyRead_snd]
  exact List.length_map _ _

/-- C10: with the socket unbound (`localPort` 0), a broadcast tick still
sends one datagram per unique collected broadcast address — the sends are
not skipped — and every datagram's destination port is 0. -/
theorem unbound_socket_still_broadcasts_port_zero (env : Env) :
    (onBroadcastTimeout env none).map eventAddress = collectBroadcastAddresses env.interfaces ∧
    (onBroadcastTimeout env none).map eventPort
      = List.replicate (collectBroadcastAddresses env.interfaces).length 0 := by
  constructor
  · exact map_eventAddress_datagram env (localPort none) _
  · exact map_eventPort_datagram env 0 _
